import Mathlib

/-!
Verification development for the nmos-node registration proxy
(`nmosnode/aggregator.py`).

The Python module is shallowly embedded below:

* Python dicts become association lists (`alookup` / `aset` / `aerase`),
  mirroring dict semantics on unique-key lists (lookup finds the first match,
  assignment replaces in place or appends, `del` removes the key).
* The `MDNSUpdater` class becomes the structure `MDNSUpdater` with pure state
  transformers for each method.
* The `Aggregator` class becomes the structure `AggState`; network I/O is an
  oracle `Env` consisting of a stream of per-attempt outcomes for HTTP
  requests made by `_SEND` and a stream of resolution results for
  `_get_api_href`.  Every HTTP request actually issued is appended to an
  observational log `AggState.requests`.
* Python exceptions become the inductive `PyExc`; an escaping exception is an
  `Except.error` / `Option.some` result.  The exception constructors
  (`NoAggregator.__init__` etc.) side-effect the mDNS updater, which is
  modelled by the `*_init` functions below.
-/

/-- Association-list lookup: first binding wins, like a Python dict
(dicts have unique keys, so on dict-like lists this is exact). -/
def alookup {α : Type} : List (String × α) → String → Option α
  | [], _ => none
  | p :: rest, k => if p.1 = k then some p.2 else alookup rest k

/-- Association-list assignment `d[k] = v`: replace the binding in place if the
key is present, otherwise append it (Python dict insertion order). -/
def aset {α : Type} (l : List (String × α)) (k : String) (v : α) : List (String × α) :=
  if l.any (fun p => p.1 = k) then
    l.map (fun p => if p.1 = k then (k, v) else p)
  else
    l ++ [(k, v)]

/-- Association-list deletion `del d[k]`. -/
def aerase {α : Type} (l : List (String × α)) (k : String) : List (String × α) :=
  l.filter (fun p => ¬ p.1 = k)

/-- Value of a service-version counter: `service_versions[k]`.  In the Python
states reachable from the constructor the key is always present (the
constructor seeds every mapping value with 0), so a default of 0 is faithful. -/
def svGet (l : List (String × Nat)) (k : String) : Nat :=
  (alookup l k).getD 0

/-- A TXT record value: the base TXT records hold strings, the merged-in
service versions hold integers. -/
inductive TxtV
  | str (s : String)
  | num (n : Nat)
deriving DecidableEq, Repr

/-- TXT record sets are dicts from key to value. -/
abbrev TxtRecs := List (String × TxtV)

/-- Python `dst = base.copy(); dst.update(upd)`: existing keys keep their
position but take the updated value, new keys are appended in order. -/
def dictUpdate (base upd : TxtRecs) : TxtRecs :=
  (base.map (fun p => match alookup upd p.1 with
    | some v => (p.1, v)
    | none => p)) ++
  upd.filter (fun q => (alookup base q.1).isNone)

/-- State of the `MDNSUpdater` class: TXT record base, per-mapping service
version counters, the P2P flag and counter, and the queue of TXT record sets
handed to the `_modify_mdns` thread (FIFO, most recent last). -/
structure MDNSUpdater where
  mappings : List (String × String)
  service_versions : List (String × Nat)
  txt_rec_base : TxtRecs
  p2p_enable : Bool
  p2p_enable_count : Nat
  p2p_cut_in_count : Nat
  update_queue : List TxtRecs
deriving DecidableEq, Repr

namespace MDNSUpdater

/-- `_p2p_txt_recs`: base TXT records merged with the service versions. -/
def _p2p_txt_recs (u : MDNSUpdater) : TxtRecs :=
  dictUpdate u.txt_rec_base (u.service_versions.map (fun p => (p.1, TxtV.num p.2)))

/-- `P2P_enable`: if not already enabled, set the flag and enqueue the merged
TXT record set. -/
def P2P_enable (u : MDNSUpdater) : MDNSUpdater :=
  if u.p2p_enable = false then
    { u with p2p_enable := true, update_queue := u.update_queue ++ [u._p2p_txt_recs] }
  else u

/-- `P2P_disable`: if enabled, clear the flag, reset the counter and enqueue
the plain base TXT set; otherwise just reset the counter. -/
def P2P_disable (u : MDNSUpdater) : MDNSUpdater :=
  if u.p2p_enable = true then
    { u with p2p_enable := false, p2p_enable_count := 0,
             update_queue := u.update_queue ++ [u.txt_rec_base] }
  else
    { u with p2p_enable_count := 0 }

/-- `inc_P2P_enable_count`: if not yet enabled, increment the counter and
engage P2P at the cut-in threshold. -/
def inc_P2P_enable_count (u : MDNSUpdater) : MDNSUpdater :=
  if u.p2p_enable = false then
    if u.p2p_enable_count + 1 ≥ u.p2p_cut_in_count then
      MDNSUpdater.P2P_enable { u with p2p_enable_count := u.p2p_enable_count + 1 }
    else { u with p2p_enable_count := u.p2p_enable_count + 1 }
  else u

/-- `_increment_service_version(type)`: bump `service_versions[mappings[type]]`
and reset it to 0 once it exceeds 255 (the two-step form mirrors the two
statements in the source).  Looking up an unmapped type raises `KeyError` in
Python; the claims only exercise mapped types, for which `getD` is exact. -/
def _increment_service_version (u : MDNSUpdater) (type : String) : MDNSUpdater :=
  let m := (alookup u.mappings type).getD ""
  let s1 := aset u.service_versions m (svGet u.service_versions m + 1)
  let s2 := if svGet s1 m > 255 then aset s1 m 0 else s1
  { u with service_versions := s2 }

/-- `update_mdns(type, action)`: when P2P is enabled and the action is one of
register/update/unregister, bump the service version and enqueue the merged
TXT record set. -/
def update_mdns (u : MDNSUpdater) (type action : String) : MDNSUpdater :=
  if u.p2p_enable = true then
    if action = "register" ∨ action = "update" ∨ action = "unregister" then
      let u1 := u._increment_service_version type
      { u1 with update_queue := u1.update_queue ++ [u1._p2p_txt_recs] }
    else u
  else u

end MDNSUpdater

/-- `NoAggregator.__init__`: bumps the updater's P2P-enable counter when an
updater is supplied, before the exception propagates. -/
def NoAggregator_init (mu : Option MDNSUpdater) : Option MDNSUpdater :=
  match mu with
  | some u => some u.inc_P2P_enable_count
  | none => none

/-- `InvalidRequest.__init__(status_code, mdns_updater)`: bumps the updater's
P2P-enable counter when an updater is supplied. -/
def InvalidRequest_init (_status_code : Nat) (mu : Option MDNSUpdater) : Option MDNSUpdater :=
  match mu with
  | some u => some u.inc_P2P_enable_count
  | none => none

/-- `TooManyRetries.__init__`: bumps the updater's P2P-enable counter when an
updater is supplied. -/
def TooManyRetries_init (mu : Option MDNSUpdater) : Option MDNSUpdater :=
  match mu with
  | some u => some u.inc_P2P_enable_count
  | none => none

/-- A resource wire envelope `{"type": ..., "data": {...}}`.  Only the
`data.id` field is consulted by the aggregator code (for URLs), so the payload
is abstracted to its type tag and id. -/
structure Envelope where
  rtype : String
  id : String
deriving DecidableEq, Repr

/-- The innermost mirror level: key to envelope. -/
abbrev KeyMap := List (String × Envelope)

/-- Per-namespace mirror level: resource type to key map. -/
abbrev TypeMap := List (String × KeyMap)

/-- `self._registered["entities"]`: namespace to type map. -/
abbrev Entities := List (String × TypeMap)

/-- A queued request intent, as put on `self._reg_queue`.  The source field
`namespace` is a Lean keyword, hence `nspace`. -/
structure Intent where
  method : String
  nspace : String
  res_type : String
  key : String
deriving DecidableEq, Repr

/-- An HTTP request actually issued on the wire: method, the aggregator base
URL it was sent to, the path below it, and the JSON body if any. -/
structure HttpReq where
  method : String
  agg : String
  path : String
  data : Option Envelope
deriving DecidableEq, Repr

/-- Observable outcome of one `requests.request` call, as classified by
`_SEND`'s response handling. -/
inductive AttemptResult
  | noResponse
  | status (code : Nat) (jsonBody : Bool)
  | transportError
deriving DecidableEq, Repr

/-- A Python exception escaping a modelled operation. -/
inductive PyExc
  | noAggregator
  | invalidRequest (status_code : Nat)
  | tooManyRetries
  | keyError
deriving DecidableEq, Repr

/-- Successful `_SEND` results: a decoded body (200/201) or nothing (204). -/
inductive SendOk
  | content
  | empty
deriving DecidableEq, Repr

/-- How `_SEND` reacts to one attempt: return, raise `InvalidRequest`, or
fail over to another aggregator. -/
inductive Outcome
  | success (k : SendOk)
  | clientError (c : Nat)
  | failover
deriving DecidableEq, Repr

/-- Response classification in `_SEND`: 200/201 return the body, 204 returns
empty, 4xx raises `InvalidRequest`, anything else (including no response or a
transport exception) falls through to failover. -/
def classify : AttemptResult → Outcome
  | .noResponse => .failover
  | .transportError => .failover
  | .status c _ =>
    if c = 200 ∨ c = 201 then .success .content
    else if c = 204 then .success .empty
    else if c / 100 = 4 then .clientError c
    else .failover

/-- The network environment: a stream of per-attempt outcomes consumed by
`_SEND` (indexed by `attemptIdx`) and a stream of resolution results consumed
by `_get_api_href` (indexed by `hrefIdx`). -/
structure Env where
  attempts : Nat → AttemptResult
  hrefs : Nat → String

/-- State of an `Aggregator` instance, together with oracle cursors and the
observational request log. -/
structure AggState where
  aggregator : String
  registered : Bool
  node : Option Envelope
  entities : Entities
  regQueue : List Intent
  updater : Option MDNSUpdater
  running : Bool
  attemptIdx : Nat
  hrefIdx : Nat
  requests : List HttpReq
deriving DecidableEq, Repr

/-- `APINAMESPACE`-derived registration API root. -/
def AGGREGATOR_APIROOT : String := "/x-nmos/registration/"

/-- The configured `NODE_REGVERSION`; its value is opaque configuration and no
claim depends on it. -/
def AGGREGATOR_APIVERSION : String := "v1.3"

/-- The fixed re-registration order of resource types. -/
def registration_order : List String :=
  ["device", "source", "flow", "sender", "receiver"]

/-- Full path sent to the registry: `AGGREGATOR_APIROOT + version + url`. -/
def fullPath (url : String) : String :=
  AGGREGATOR_APIROOT ++ AGGREGATOR_APIVERSION ++ url

/-- `_get_api_href`: one query of the mDNS bridge chain (modern type first,
then legacy); the oracle yields the returned base URL, "" when nothing was
found. -/
def get_api_href (st : AggState) (env : Env) : AggState × String :=
  ({ st with hrefIdx := st.hrefIdx + 1 }, env.hrefs st.hrefIdx)

/-- `raise NoAggregator(self._mdns_updater)`. -/
def raiseNoAggregator (st : AggState) : AggState × Except PyExc SendOk :=
  ({ st with updater := NoAggregator_init st.updater }, .error .noAggregator)

/-- `raise InvalidRequest(status_code, self._mdns_updater)`. -/
def raiseInvalidRequest (c : Nat) (st : AggState) : AggState × Except PyExc SendOk :=
  ({ st with updater := InvalidRequest_init c st.updater }, .error (.invalidRequest c))

/-- `raise TooManyRetries(self._mdns_updater)`. -/
def raiseTooManyRetries (st : AggState) : AggState × Except PyExc SendOk :=
  ({ st with updater := TooManyRetries_init st.updater }, .error .tooManyRetries)

/-- The `for i in range(0, 3)` attempt loop of `_SEND`, with the remaining
iteration count as fuel.  Each iteration: raise `NoAggregator` if no
aggregator is known, otherwise issue the request (logged, consuming one
oracle attempt); 200/201/204 return, 4xx raises `InvalidRequest`, anything
else re-resolves the aggregator and moves to the next iteration.  When the
loop ends, raise `TooManyRetries`. -/
def sendAttempts (env : Env) (method path : String) (data : Option Envelope) :
    Nat → AggState → AggState × Except PyExc SendOk
  | 0, st => raiseTooManyRetries st
  | fuel + 1, st =>
    if st.aggregator = "" then raiseNoAggregator st
    else
      let st1 := { st with
        requests := st.requests ++ [⟨method, st.aggregator, path, data⟩],
        attemptIdx := st.attemptIdx + 1 }
      match classify (env.attempts st.attemptIdx) with
      | .success k => (st1, .ok k)
      | .clientError c => raiseInvalidRequest c st1
      | .failover =>
        let r := get_api_href st1 env
        sendAttempts env method path data fuel { r.1 with aggregator := r.2 }

/-- `_SEND(method, url, data)`: resolve an aggregator if none is cached, then
run the attempt loop with budget 3 on the composed path. -/
def SEND (st : AggState) (env : Env) (method url : String) (data : Option Envelope) :
    AggState × Except PyExc SendOk :=
  let st0 :=
    if st.aggregator = "" then
      let r := get_api_href st env
      { r.1 with aggregator := r.2 }
    else st
  sendAttempts env method (fullPath url) data 3 st0

/-- Delete `entities[ns][rt][key]` from the mirror (the worker's reaction to a
4xx on a resource POST). -/
def delEntity (ents : Entities) (ns rt key : String) : Entities :=
  ents.map fun p =>
    if p.1 = ns then
      (p.1, p.2.map fun q => if q.1 = rt then (q.1, aerase q.2 key) else q)
    else p

/-- Body of one dequeued-intent processing in `_process_queue`, inside the
outer `try`.  The returned `Option PyExc` is the exception escaping to the
outer handler, if any:

* POST of `node`: everything (including the `data["id"]` subscription when the
  node envelope is `None`) happens inside an inner `except Exception` that
  only logs, so nothing ever escapes; on success `registered` is set and
  `P2P_disable` signalled.
* POST of anything else: the two mirror subscriptions raise `KeyError` when
  the namespace or type level is missing (escaping to the outer handler); a
  missing key skips; a 4xx from the send deletes the entity from the mirror;
  other send exceptions escape.
* DELETE: a 4xx is logged and swallowed, other send exceptions escape.
* Other methods are logged and dropped. -/
def processIntentInner (st : AggState) (it : Intent) (env : Env) :
    AggState × Option PyExc :=
  if it.method = "POST" then
    if it.res_type = "node" then
      match st.node with
      | none => (st, none)
      | some nd =>
        match SEND st env "POST" ("/" ++ it.nspace) (some nd) with
        | (st1, .error _) => (st1, none)
        | (st1, .ok _) =>
          match SEND st1 env "POST" ("/health/nodes/" ++ nd.id) none with
          | (st2, .error _) => (st2, none)
          | (st2, .ok _) =>
            ({ st2 with registered := true,
                        updater := st2.updater.map MDNSUpdater.P2P_disable }, none)
    else
      match alookup st.entities it.nspace with
      | none => (st, some .keyError)
      | some tmap =>
        match alookup tmap it.res_type with
        | none => (st, some .keyError)
        | some kmap =>
          match alookup kmap it.key with
          | none => (st, none)
          | some data =>
            match SEND st env "POST" ("/" ++ it.nspace) (some data) with
            | (st1, .error (.invalidRequest _)) =>
              ({ st1 with entities := delEntity st1.entities it.nspace it.res_type it.key },
               none)
            | (st1, .error e) => (st1, some e)
            | (st1, .ok _) => (st1, none)
  else if it.method = "DELETE" then
    match SEND st env "DELETE"
        ("/" ++ it.nspace ++ "/" ++ (it.res_type ++ "s") ++ "/" ++ it.key) none with
    | (st1, .error (.invalidRequest _)) => (st1, none)
    | (st1, .error e) => (st1, some e)
    | (st1, .ok _) => (st1, none)
  else
    (st, none)

/-- One iteration of the `_process_queue` loop body: while the node is not
believed registered or the queue is empty the thread only sleeps; otherwise it
dequeues the head intent, processes it, and on any escaping exception marks
the node unregistered and signals `P2P_disable`. -/
def processQueueStep (st : AggState) (env : Env) : AggState :=
  if st.registered = false then st
  else
    match st.regQueue with
    | [] => st
    | it :: rest =>
      match processIntentInner { st with regQueue := rest } it env with
      | (st1, none) => st1
      | (st1, some _) =>
        { st1 with registered := false,
                   updater := st1.updater.map MDNSUpdater.P2P_disable }

/-- The POST intents enqueued at the end of a successful re-registration pass:
first every mirrored entity of each type in `registration_order` (across all
namespaces, in order), then every entity of the remaining types. -/
def reregisterEnqueueList (ents : Entities) : List Intent :=
  (registration_order.flatMap fun rt =>
    ents.flatMap fun p =>
      match alookup p.2 rt with
      | some kmap => kmap.map fun q => ⟨"POST", p.1, rt, q.1⟩
      | none => []) ++
  (ents.flatMap fun p =>
    p.2.flatMap fun q =>
      if q.1 ∈ registration_order then []
      else q.2.map fun r => ⟨"POST", p.1, q.1, r.1⟩)

/-- `_process_reregister`: nothing to do without a node envelope; otherwise
DELETE the node (4xx tolerated, transport failure aborts), mark unregistered
and bump the P2P counter, drain the request queue, then POST the node and an
immediate heartbeat.  On failure of either POST, clear the cached aggregator
and abort; on success mark registered, signal `P2P_disable`, and enqueue every
mirrored entity in dependency order. -/
def process_reregister (st : AggState) (env : Env) : AggState :=
  match st.node with
  | none => st
  | some nd =>
    let r1 := SEND st env "DELETE" ("/resource/nodes/" ++ nd.id) none
    match r1.2 with
    | .error (.invalidRequest _) => reregisterAfterClear r1.1 nd env
    | .error _ => r1.1
    | .ok _ => reregisterAfterClear r1.1 nd env
where
  /-- Continuation after the node DELETE: lines 272 onward of the source. -/
  reregisterAfterClear (st : AggState) (nd : Envelope) (env : Env) : AggState :=
    let st2 := { st with registered := false,
                         updater := st.updater.map MDNSUpdater.inc_P2P_enable_count,
                         regQueue := [] }
    match SEND st2 env "POST" "/resource" (some nd) with
    | (st3, .error _) => { st3 with aggregator := "" }
    | (st3, .ok _) =>
      match SEND st3 env "POST" ("/health/nodes/" ++ nd.id) none with
      | (st4, .error _) => { st4 with aggregator := "" }
      | (st4, .ok _) =>
        let st5 := { st4 with registered := true,
                              updater := st4.updater.map MDNSUpdater.P2P_disable }
        { st5 with regQueue := st5.regQueue ++ reregisterEnqueueList st5.entities }

/-- One 5-second tick of the `_heartbeat` loop body: re-register when not
believed registered; otherwise heartbeat the node, reacting to a 404 by
marking for re-registration and bumping the P2P counter, to another 4xx by
halting, and to any other exception by marking for re-registration; with no
node envelope, mark unregistered and bump the P2P counter. -/
def heartbeatTick (st : AggState) (env : Env) : AggState :=
  if st.registered = false then process_reregister st env
  else
    match st.node with
    | some nd =>
      (match SEND st env "POST" ("/health/nodes/" ++ nd.id) none with
       | (st1, .ok _) => st1
       | (st1, .error (.invalidRequest c)) =>
         if c = 404 then
           { st1 with registered := false,
                      updater := st1.updater.map MDNSUpdater.inc_P2P_enable_count }
         else
           { st1 with running := false }
       | (st1, .error _) => { st1 with registered := false })
    | none =>
      { st with registered := false,
                updater := st.updater.map MDNSUpdater.inc_P2P_enable_count }

/-- `n` further iterations of the `while self._running` heartbeat loop: each
iteration runs one tick only while the running flag holds. -/
def heartbeatRun (env : Env) : Nat → AggState → AggState
  | 0, st => st
  | n + 1, st =>
    if st.running = true then heartbeatRun env n (heartbeatTick st env)
    else st

/-! Association-list lemmas. -/

theorem mem_aset {α : Type} {l : List (String × α)} {k : String} {v : α} :
    ∀ p ∈ aset l k v, p = (k, v) ∨ (p ∈ l ∧ ¬ p.1 = k) := by
  intro p hp
  unfold aset at hp
  by_cases h : l.any (fun q => decide (q.1 = k)) = true
  · rw [if_pos h] at hp
    rcases List.mem_map.1 hp with ⟨q, hq, rfl⟩
    by_cases hqk : q.1 = k
    · left; simp [hqk]
    · right; simp only [if_neg hqk]; exact ⟨hq, hqk⟩
  · rw [if_neg h] at hp
    rcases List.mem_append.1 hp with h1 | h1
    · right
      refine ⟨h1, ?_⟩
      have h2 := List.any_eq_false.1 (Bool.eq_false_iff.2 h)
      simpa using h2 p h1
    · left; simpa using h1

theorem alookup_map_replace {α : Type} {l : List (String × α)} {k : String} {v : α}
    (h : ∃ q ∈ l, q.1 = k) :
    alookup (l.map (fun p => if p.1 = k then (k, v) else p)) k = some v := by
  induction l with
  | nil => simp at h
  | cons q rest ih =>
    by_cases hq : q.1 = k
    · simp [alookup, hq]
    · have h2 : ∃ q ∈ rest, q.1 = k := by
        rcases h with ⟨r, hr, hrk⟩
        rcases List.mem_cons.1 hr with rfl | hr2
        · exact absurd hrk hq
        · exact ⟨r, hr2, hrk⟩
      simpa [alookup, hq] using ih h2

theorem alookup_append_single {α : Type} {l : List (String × α)} {k : String} {v : α}
    (h : ∀ q ∈ l, ¬ q.1 = k) :
    alookup (l ++ [(k, v)]) k = some v := by
  induction l with
  | nil => simp [alookup]
  | cons q rest ih =>
    have hq : ¬ q.1 = k := h q (by simp)
    simpa [alookup, hq] using ih (fun r hr => h r (List.mem_cons_of_mem _ hr))

theorem alookup_aset_self {α : Type} (l : List (String × α)) (k : String) (v : α) :
    alookup (aset l k v) k = some v := by
  unfold aset
  by_cases h : l.any (fun q => decide (q.1 = k)) = true
  · rw [if_pos h]
    apply alookup_map_replace
    simpa using List.any_eq_true.1 h
  · rw [if_neg h]
    apply alookup_append_single
    have h2 := List.any_eq_false.1 (Bool.eq_false_iff.2 h)
    intro q hq
    simpa using h2 q hq

theorem svGet_aset_self (l : List (String × Nat)) (k : String) (v : Nat) :
    svGet (aset l k v) k = v := by
  simp [svGet, alookup_aset_self]

/-! Lemmas about the mDNS updater operations. -/

namespace MDNSUpdater

theorem P2P_enable_count_eq (u : MDNSUpdater) :
    u.P2P_enable.p2p_enable_count = u.p2p_enable_count := by
  unfold P2P_enable
  split <;> rfl

theorem inc_count_of_not_enable (u : MDNSUpdater) (h : u.p2p_enable = false) :
    u.inc_P2P_enable_count.p2p_enable_count = u.p2p_enable_count + 1 := by
  unfold inc_P2P_enable_count
  rw [if_pos h]
  split
  · rw [P2P_enable_count_eq]
  · rfl

theorem inc_small (u : MDNSUpdater) (h : u.p2p_enable = false)
    (h2 : u.p2p_enable_count + 1 < u.p2p_cut_in_count) :
    u.inc_P2P_enable_count = { u with p2p_enable_count := u.p2p_enable_count + 1 } := by
  unfold inc_P2P_enable_count
  rw [if_pos h, if_neg (by omega)]

theorem increment_bound (u : MDNSUpdater) (type : String)
    (h : ∀ p ∈ u.service_versions, p.2 ≤ 255) :
    ∀ p ∈ (u._increment_service_version type).service_versions, p.2 ≤ 255 := by
  simp only [_increment_service_version]
  set m := (alookup u.mappings type).getD "" with hm
  set g := svGet u.service_versions m with hg
  by_cases hgt : svGet (aset u.service_versions m (g + 1)) m > 255
  · rw [if_pos hgt]
    intro p hp
    rcases mem_aset p hp with rfl | ⟨hp1, hp2⟩
    · exact Nat.zero_le _
    · rcases mem_aset p hp1 with rfl | ⟨hp3, _⟩
      · exact absurd rfl hp2
      · exact h p hp3
  · rw [if_neg hgt]
    intro p hp
    rcases mem_aset p hp with rfl | ⟨hp1, _⟩
    · rw [svGet_aset_self] at hgt
      omega
    · exact h p hp1

theorem update_mdns_bound (u : MDNSUpdater) (type action : String)
    (h : ∀ p ∈ u.service_versions, p.2 ≤ 255) :
    ∀ p ∈ (u.update_mdns type action).service_versions, p.2 ≤ 255 := by
  unfold update_mdns
  split
  · split
    · exact increment_bound u type h
    · exact h
  · exact h

end MDNSUpdater

/-- Iterated `inc_P2P_enable_count`: `n` consecutive P2P-enable signals with
no intervening `P2P_disable`. -/
def iterInc (u : MDNSUpdater) : Nat → MDNSUpdater
  | 0 => u
  | n + 1 => (iterInc u n).inc_P2P_enable_count

theorem iterInc_small (u : MDNSUpdater) (h : u.p2p_enable = false) :
    ∀ k, u.p2p_enable_count + k < u.p2p_cut_in_count →
      iterInc u k = { u with p2p_enable_count := u.p2p_enable_count + k } := by
  intro k
  induction k with
  | zero => intro _; show u = _; simp
  | succ n ih =>
    intro hk
    have hn : u.p2p_enable_count + n < u.p2p_cut_in_count := by omega
    show (iterInc u n).inc_P2P_enable_count = _
    rw [ih hn]
    rw [MDNSUpdater.inc_small _ (by simpa using h) (by simpa using hk)]
    simp [Nat.add_assoc]

/-- Claim C8: starting from `p2p_enable = false` and counter 0, after exactly
`p2p_cut_in_count` consecutive calls to `inc_P2P_enable_count` with no
intervening `P2P_disable`, `p2p_enable` is true and the merged TXT record set
(base plus service versions) has been enqueued on the update queue exactly
once.  (The threshold must be positive for "reaching the threshold by
increments" to make sense; the shipped default is 5.) -/
theorem C8_p2p_engagement (u : MDNSUpdater) (hen : u.p2p_enable = false)
    (hcnt : u.p2p_enable_count = 0) (hpos : 1 ≤ u.p2p_cut_in_count) :
    (iterInc u u.p2p_cut_in_count).p2p_enable = true ∧
    (iterInc u u.p2p_cut_in_count).update_queue =
      u.update_queue ++ [u._p2p_txt_recs] := by
  obtain ⟨n, hn⟩ : ∃ n, u.p2p_cut_in_count = n + 1 := ⟨u.p2p_cut_in_count - 1, by omega⟩
  have hstep : iterInc u u.p2p_cut_in_count =
      MDNSUpdater.inc_P2P_enable_count { u with p2p_enable_count := n } := by
    conv_lhs => rw [hn]
    show (iterInc u n).inc_P2P_enable_count = _
    rw [iterInc_small u hen n (by omega)]
    congr 1
    simp [hcnt]
  rw [hstep]
  unfold MDNSUpdater.inc_P2P_enable_count
  rw [if_pos (by simpa using hen)]
  rw [if_pos (by simp; omega)]
  unfold MDNSUpdater.P2P_enable
  rw [if_pos (by simpa using hen)]
  exact ⟨rfl, rfl⟩

/-! Unfolding lemmas for the Sender. -/

theorem sendAttempts_zero (env : Env) (m p : String) (d : Option Envelope) (st : AggState) :
    sendAttempts env m p d 0 st = raiseTooManyRetries st := rfl

theorem sendAttempts_succ_noagg (env : Env) (m p : String) (d : Option Envelope)
    (fuel : Nat) (st : AggState) (hagg : st.aggregator = "") :
    sendAttempts env m p d (fuel + 1) st = raiseNoAggregator st := by
  unfold sendAttempts
  rw [if_pos hagg]

theorem sendAttempts_succ_success (env : Env) (m p : String) (d : Option Envelope)
    (fuel : Nat) (st : AggState) (k : SendOk) (hagg : ¬ st.aggregator = "")
    (hc : classify (env.attempts st.attemptIdx) = .success k) :
    sendAttempts env m p d (fuel + 1) st =
      ({ st with requests := st.requests ++ [⟨m, st.aggregator, p, d⟩],
                 attemptIdx := st.attemptIdx + 1 }, .ok k) := by
  unfold sendAttempts
  rw [if_neg hagg]
  simp only [hc]

theorem sendAttempts_succ_client (env : Env) (m p : String) (d : Option Envelope)
    (fuel : Nat) (st : AggState) (c : Nat) (hagg : ¬ st.aggregator = "")
    (hc : classify (env.attempts st.attemptIdx) = .clientError c) :
    sendAttempts env m p d (fuel + 1) st =
      ({ st with requests := st.requests ++ [⟨m, st.aggregator, p, d⟩],
                 attemptIdx := st.attemptIdx + 1,
                 updater := InvalidRequest_init c st.updater },
       .error (.invalidRequest c)) := by
  unfold sendAttempts
  rw [if_neg hagg]
  simp only [hc, raiseInvalidRequest]

theorem sendAttempts_succ_failover (env : Env) (m p : String) (d : Option Envelope)
    (fuel : Nat) (st : AggState) (hagg : ¬ st.aggregator = "")
    (hc : classify (env.attempts st.attemptIdx) = .failover) :
    sendAttempts env m p d (fuel + 1) st =
      sendAttempts env m p d fuel
        { st with requests := st.requests ++ [⟨m, st.aggregator, p, d⟩],
                  attemptIdx := st.attemptIdx + 1,
                  hrefIdx := st.hrefIdx + 1,
                  aggregator := env.hrefs st.hrefIdx } := by
  unfold sendAttempts
  rw [if_neg hagg]
  simp only [hc, get_api_href]
  cases fuel <;> rfl

theorem SEND_of_agg (st : AggState) (env : Env) (m url : String) (d : Option Envelope)
    (hagg : ¬ st.aggregator = "") :
    SEND st env m url d = sendAttempts env m (fullPath url) d 3 st := by
  unfold SEND
  rw [if_neg hagg]

theorem SEND_of_noagg (st : AggState) (env : Env) (m url : String) (d : Option Envelope)
    (hagg : st.aggregator = "") :
    SEND st env m url d = sendAttempts env m (fullPath url) d 3
      { st with hrefIdx := st.hrefIdx + 1, aggregator := env.hrefs st.hrefIdx } := by
  unfold SEND
  rw [if_pos hagg]
  simp only [get_api_href]

theorem SEND_first_success (st : AggState) (env : Env) (m url : String) (d : Option Envelope)
    (k : SendOk) (hagg : ¬ st.aggregator = "")
    (hc : classify (env.attempts st.attemptIdx) = .success k) :
    SEND st env m url d =
      ({ st with requests := st.requests ++ [⟨m, st.aggregator, fullPath url, d⟩],
                 attemptIdx := st.attemptIdx + 1 }, .ok k) := by
  rw [SEND_of_agg st env m url d hagg]
  exact sendAttempts_succ_success env m (fullPath url) d 2 st k hagg hc

theorem SEND_first_client (st : AggState) (env : Env) (m url : String) (d : Option Envelope)
    (c : Nat) (hagg : ¬ st.aggregator = "")
    (hc : classify (env.attempts st.attemptIdx) = .clientError c) :
    SEND st env m url d =
      ({ st with requests := st.requests ++ [⟨m, st.aggregator, fullPath url, d⟩],
                 attemptIdx := st.attemptIdx + 1,
                 updater := InvalidRequest_init c st.updater },
       .error (.invalidRequest c)) := by
  rw [SEND_of_agg st env m url d hagg]
  exact sendAttempts_succ_client env m (fullPath url) d 2 st c hagg hc

/-! Global properties of the attempt loop, by induction on remaining fuel. -/

theorem sendAttempts_len_le (env : Env) (m p : String) (d : Option Envelope) :
    ∀ (fuel : Nat) (st : AggState),
      (sendAttempts env m p d fuel st).1.requests.length ≤ st.requests.length + fuel := by
  intro fuel
  induction fuel with
  | zero => intro st; simp [sendAttempts_zero, raiseTooManyRetries]
  | succ n ih =>
    intro st
    by_cases hagg : st.aggregator = ""
    · rw [sendAttempts_succ_noagg env m p d n st hagg]
      simp [raiseNoAggregator]
    · cases hc : classify (env.attempts st.attemptIdx) with
      | success k =>
        rw [sendAttempts_succ_success env m p d n st k hagg hc]
        simp
      | clientError c =>
        rw [sendAttempts_succ_client env m p d n st c hagg hc]
        simp
      | failover =>
        rw [sendAttempts_succ_failover env m p d n st hagg hc]
        refine le_trans (ih _) ?_
        simp
        omega

theorem sendAttempts_tmr (env : Env) (m p : String) (d : Option Envelope) :
    ∀ (fuel : Nat) (st : AggState),
      (sendAttempts env m p d fuel st).2 = .error .tooManyRetries →
      (sendAttempts env m p d fuel st).1.requests.length = st.requests.length + fuel ∧
      (sendAttempts env m p d fuel st).1.hrefIdx = st.hrefIdx + fuel := by
  intro fuel
  induction fuel with
  | zero =>
    intro st _
    exact ⟨rfl, rfl⟩
  | succ n ih =>
    intro st h
    by_cases hagg : st.aggregator = ""
    · rw [sendAttempts_succ_noagg env m p d n st hagg] at h
      simp [raiseNoAggregator] at h
    · cases hc : classify (env.attempts st.attemptIdx) with
      | success k =>
        rw [sendAttempts_succ_success env m p d n st k hagg hc] at h
        simp at h
      | clientError c =>
        rw [sendAttempts_succ_client env m p d n st c hagg hc] at h
        simp [raiseInvalidRequest] at h
      | failover =>
        rw [sendAttempts_succ_failover env m p d n st hagg hc] at h ⊢
        obtain ⟨h1, h2⟩ := ih _ h
        rw [h1, h2]
        constructor <;> simp <;> omega

theorem sendAttempts_noagg_res (env : Env) (m p : String) (d : Option Envelope) :
    ∀ (fuel : Nat) (st : AggState),
      (sendAttempts env m p d fuel st).2 = .error .noAggregator →
      (sendAttempts env m p d fuel st).1.aggregator = "" ∧
      (sendAttempts env m p d fuel st).1.requests.length < st.requests.length + fuel := by
  intro fuel
  induction fuel with
  | zero =>
    intro st h
    simp [sendAttempts_zero, raiseTooManyRetries] at h
  | succ n ih =>
    intro st h
    by_cases hagg : st.aggregator = ""
    · rw [sendAttempts_succ_noagg env m p d n st hagg]
      refine ⟨hagg, ?_⟩
      simp [raiseNoAggregator]
    · cases hc : classify (env.attempts st.attemptIdx) with
      | success k =>
        rw [sendAttempts_succ_success env m p d n st k hagg hc] at h
        simp at h
      | clientError c =>
        rw [sendAttempts_succ_client env m p d n st c hagg hc] at h
        simp [raiseInvalidRequest] at h
      | failover =>
        rw [sendAttempts_succ_failover env m p d n st hagg hc] at h ⊢
        obtain ⟨h1, h2⟩ := ih _ h
        refine ⟨h1, lt_of_lt_of_le h2 ?_⟩
        simp
        omega

/-- Claim C2: the Sender performs at most 3 request attempts per call; a
`TooManyRetries` outcome means exactly 3 attempts were issued and (when an
aggregator was cached on entry) each of the 3 failed attempts consumed one
re-resolution; `NoAggregator` is raised exactly when the aggregator in hand
is empty, which happens as soon as a consulted resolution yields the empty
URL with budget remaining. -/
theorem C2_retry_budget :
    (∀ (st : AggState) (env : Env) (m url : String) (d : Option Envelope),
      (SEND st env m url d).1.requests.length ≤ st.requests.length + 3)
    ∧ (∀ (st : AggState) (env : Env) (m url : String) (d : Option Envelope),
        (SEND st env m url d).2 = .error .tooManyRetries →
        (SEND st env m url d).1.requests.length = st.requests.length + 3)
    ∧ (∀ (st : AggState) (env : Env) (m url : String) (d : Option Envelope),
        ¬ st.aggregator = "" →
        (SEND st env m url d).2 = .error .tooManyRetries →
        (SEND st env m url d).1.hrefIdx = st.hrefIdx + 3)
    ∧ (∀ (st : AggState) (env : Env) (m url : String) (d : Option Envelope),
        (SEND st env m url d).2 = .error .noAggregator →
        (SEND st env m url d).1.aggregator = "" ∧
        (SEND st env m url d).1.requests.length < st.requests.length + 3)
    ∧ (∀ (st : AggState) (env : Env) (m url : String) (d : Option Envelope),
        ¬ st.aggregator = "" →
        classify (env.attempts st.attemptIdx) = .failover →
        env.hrefs st.hrefIdx = "" →
        (SEND st env m url d).2 = .error .noAggregator) := by
  refine ⟨?_, ?_, ?_, ?_, ?_⟩
  · intro st env m url d
    by_cases hagg : st.aggregator = ""
    · rw [SEND_of_noagg st env m url d hagg]
      exact le_trans (sendAttempts_len_le env m (fullPath url) d 3 _) (by simp)
    · rw [SEND_of_agg st env m url d hagg]
      exact sendAttempts_len_le env m (fullPath url) d 3 st
  · intro st env m url d h
    by_cases hagg : st.aggregator = ""
    · rw [SEND_of_noagg st env m url d hagg] at h ⊢
      simpa using (sendAttempts_tmr env m (fullPath url) d 3 _ h).1
    · rw [SEND_of_agg st env m url d hagg] at h ⊢
      exact (sendAttempts_tmr env m (fullPath url) d 3 st h).1
  · intro st env m url d hagg h
    rw [SEND_of_agg st env m url d hagg] at h ⊢
    exact (sendAttempts_tmr env m (fullPath url) d 3 st h).2
  · intro st env m url d h
    by_cases hagg : st.aggregator = ""
    · rw [SEND_of_noagg st env m url d hagg] at h ⊢
      obtain ⟨h1, h2⟩ := sendAttempts_noagg_res env m (fullPath url) d 3 _ h
      exact ⟨h1, by simpa using h2⟩
    · rw [SEND_of_agg st env m url d hagg] at h ⊢
      exact sendAttempts_noagg_res env m (fullPath url) d 3 st h
  · intro st env m url d hagg hc hh
    rw [SEND_of_agg st env m url d hagg]
    rw [sendAttempts_succ_failover env m (fullPath url) d 2 st hagg hc]
    rw [sendAttempts_succ_noagg env m (fullPath url) d 1 _ (by simpa using hh)]
    rfl

/-- Concrete updater for witnesses: one mapping, fresh counters, default
cut-in threshold 5. -/
def uW : MDNSUpdater :=
  { mappings := [("device", "ver_dvc")], service_versions := [("ver_dvc", 0)],
    txt_rec_base := [("api_proto", .str "http")], p2p_enable := false,
    p2p_enable_count := 0, p2p_cut_in_count := 5, update_queue := [] }

/-- Witness for C8 at the concrete updater `uW` (threshold 5). -/
theorem C8_p2p_engagement_witness :
    (iterInc uW uW.p2p_cut_in_count).p2p_enable = true ∧
    (iterInc uW uW.p2p_cut_in_count).update_queue =
      uW.update_queue ++ [uW._p2p_txt_recs] :=
  C8_p2p_engagement uW rfl rfl (by decide)

/-- Claim C9: for every mapping value, the service-version counters stay in
[0, 255] across any sequence of `update_mdns` calls, and an increment applied
at 255 wraps the counter to 0. -/
theorem C9_service_version_range :
    (∀ (u : MDNSUpdater) (ops : List (String × String)),
      (∀ p ∈ u.service_versions, p.2 ≤ 255) →
      ∀ p ∈ (ops.foldl (fun a op => a.update_mdns op.1 op.2) u).service_versions,
        p.2 ≤ 255)
    ∧ (∀ (u : MDNSUpdater) (t m : String),
        alookup u.mappings t = some m →
        svGet u.service_versions m = 255 →
        svGet (u._increment_service_version t).service_versions m = 0) := by
  constructor
  · intro u ops
    induction ops generalizing u with
    | nil => intro h; exact h
    | cons op rest ih =>
      intro h
      exact ih _ (MDNSUpdater.update_mdns_bound u op.1 op.2 h)
  · intro u t m hmap h255
    simp only [MDNSUpdater._increment_service_version, hmap, Option.getD_some]
    rw [h255]
    rw [if_pos (by rw [svGet_aset_self]; omega)]
    rw [svGet_aset_self]

/-- Concrete updater with a counter already at the wrap point. -/
def uW9 : MDNSUpdater := { uW with service_versions := [("ver_dvc", 255)] }

/-- Witness for C9: the bound after one `update_mdns` call and the wrap at
255, both at concrete updaters. -/
theorem C9_service_version_range_witness :
    (∀ p ∈ (([("device", "register")] : List (String × String)).foldl
        (fun a op => a.update_mdns op.1 op.2) uW9).service_versions, p.2 ≤ 255)
    ∧ svGet (uW9._increment_service_version "device").service_versions "ver_dvc" = 0 :=
  ⟨C9_service_version_range.1 uW9 [("device", "register")] (by decide),
   C9_service_version_range.2 uW9 "device" "ver_dvc" (by decide) (by decide)⟩

/-- Zero-based position of `t` in `l`, or `l.length` when `t` is absent. -/
def idxIn : List String → String → Nat
  | [], _ => 0
  | h :: r, t => if h = t then 0 else idxIn r t + 1

/-- Position of a resource type in `registration_order`; every unlisted type
shares the after-the-end position `registration_order.length`. -/
def typeIdx (t : String) : Nat := idxIn registration_order t

theorem idxIn_eq_length_of_not_mem (l : List String) (t : String) (h : t ∉ l) :
    idxIn l t = l.length := by
  induction l with
  | nil => rfl
  | cons a r ih =>
    have ha : ¬ a = t := fun e => h (by rw [e]; exact List.mem_cons_self _ _)
    simp [idxIn, ha, ih (fun hm => h (List.mem_cons_of_mem _ hm))]

theorem idxIn_lt_length_of_mem (l : List String) (t : String) (h : t ∈ l) :
    idxIn l t < l.length := by
  induction l with
  | nil => simp at h
  | cons a r ih =>
    by_cases e : a = t
    · simp [idxIn, e]
    · have hr : t ∈ r := by
        rcases List.mem_cons.1 h with h1 | h1
        · exact absurd h1.symm e
        · exact h1
      have := ih hr
      simp only [idxIn, if_neg e, List.length_cons]
      omega

theorem mem_orderedPart_res_type (ents : Entities) (rt : String) (x : Intent)
    (hx : x ∈ ents.flatMap fun p =>
      match alookup p.2 rt with
      | some kmap => kmap.map fun q => (⟨"POST", p.1, rt, q.1⟩ : Intent)
      | none => []) :
    x.res_type = rt := by
  rcases List.mem_flatMap.1 hx with ⟨p, _, hxp⟩
  cases h : alookup p.2 rt with
  | none => rw [h] at hxp; simp at hxp
  | some kmap =>
    rw [h] at hxp
    rcases List.mem_map.1 hxp with ⟨q, _, rfl⟩
    rfl

theorem mem_unorderedPart_not_listed (ents : Entities) (x : Intent)
    (hx : x ∈ ents.flatMap fun p =>
      p.2.flatMap fun q =>
        if q.1 ∈ registration_order then []
        else q.2.map fun r => (⟨"POST", p.1, q.1, r.1⟩ : Intent)) :
    x.res_type ∉ registration_order := by
  rcases List.mem_flatMap.1 hx with ⟨p, _, hxp⟩
  rcases List.mem_flatMap.1 hxp with ⟨q, _, hxq⟩
  by_cases hq : q.1 ∈ registration_order
  · rw [if_pos hq] at hxq; simp at hxq
  · rw [if_neg hq] at hxq
    rcases List.mem_map.1 hxq with ⟨r, _, rfl⟩
    exact hq

/-- The type positions along a re-registration enqueue pass never decrease. -/
theorem reregister_pairwise (ents : Entities) :
    (reregisterEnqueueList ents).Pairwise
      (fun a b => typeIdx a.res_type ≤ typeIdx b.res_type) := by
  unfold reregisterEnqueueList
  refine List.pairwise_append.2 ⟨?_, ?_, ?_⟩
  · refine List.pairwise_flatMap.2 ⟨?_, ?_⟩
    · intro rt _
      apply List.pairwise_of_forall_mem_list
      intro x hx y hy
      rw [mem_orderedPart_res_type ents rt x hx, mem_orderedPart_res_type ents rt y hy]
    · have hord : registration_order.Pairwise (fun a b => typeIdx a < typeIdx b) := by
        decide
      refine hord.imp ?_
      intro a b hab x hx y hy
      rw [mem_orderedPart_res_type ents a x hx, mem_orderedPart_res_type ents b y hy]
      omega
  · apply List.pairwise_of_forall_mem_list
    intro x hx y hy
    have hx5 := mem_unorderedPart_not_listed ents x hx
    have hy5 := mem_unorderedPart_not_listed ents y hy
    rw [typeIdx, typeIdx, idxIn_eq_length_of_not_mem _ _ hx5,
        idxIn_eq_length_of_not_mem _ _ hy5]
  · intro x hx y hy
    rcases List.mem_flatMap.1 hx with ⟨rt, hrt, hxrt⟩
    have hxr := mem_orderedPart_res_type ents rt x hxrt
    have hy5 := mem_unorderedPart_not_listed ents y hy
    rw [hxr, typeIdx, typeIdx, idxIn_eq_length_of_not_mem _ _ hy5]
    exact le_of_lt (idxIn_lt_length_of_mem _ _ hrt)

/-- Claim C3: in every re-registration pass over any mirror contents, every
entity of a type earlier in `[device, source, flow, sender, receiver]` is
enqueued before every entity of a later type, and entities of unlisted types
are enqueued only after all listed ones (`typeIdx` places all unlisted types
after the end of the order). -/
theorem C3_reregister_order (ents : Entities)
    (i j : Fin (reregisterEnqueueList ents).length)
    (hij : typeIdx ((reregisterEnqueueList ents).get i).res_type <
           typeIdx ((reregisterEnqueueList ents).get j).res_type) :
    (i : Nat) < (j : Nat) := by
  by_contra hne
  rcases Nat.lt_or_ge (j : Nat) (i : Nat) with hlt | hge
  · have hp := List.pairwise_iff_getElem.1 (reregister_pairwise ents)
      (j : Nat) (i : Nat) j.isLt i.isLt hlt
    simp only [List.get_eq_getElem] at hij
    omega
  · have hij' : i = j := Fin.ext (by omega)
    rw [hij'] at hij
    exact lt_irrefl _ hij

/-- Concrete mirror for the C3 witness: a source listed before a device so the
enqueue order must flip them. -/
def entsW : Entities :=
  [("resource", [("source", [("s1", ⟨"source", "s1"⟩)]),
                 ("device", [("d1", ⟨"device", "d1"⟩)])])]

/-- Witness for C3 at `entsW`: the device intent (position 0) precedes the
source intent (position 1). -/
theorem C3_reregister_order_witness :
    ((⟨0, by decide⟩ : Fin (reregisterEnqueueList entsW).length) : Nat) <
    ((⟨1, by decide⟩ : Fin (reregisterEnqueueList entsW).length) : Nat) :=
  C3_reregister_order entsW ⟨0, by decide⟩ ⟨1, by decide⟩ (by decide)

/-- Claim C10: constructing any of `NoAggregator`, `InvalidRequest` or
`TooManyRetries` with a present mdns updater calls `inc_P2P_enable_count` in
the constructor itself (so the counter rises by one whenever P2P is not yet
engaged), and a 4xx raise from inside the Sender routes the updater through
the `InvalidRequest` constructor — on top of whatever bump the catching
controller performs afterwards. -/
theorem C10_ctor_bumps :
    (∀ u : MDNSUpdater, NoAggregator_init (some u) = some u.inc_P2P_enable_count)
    ∧ (∀ (c : Nat) (u : MDNSUpdater),
        InvalidRequest_init c (some u) = some u.inc_P2P_enable_count)
    ∧ (∀ u : MDNSUpdater, TooManyRetries_init (some u) = some u.inc_P2P_enable_count)
    ∧ (∀ u : MDNSUpdater, u.p2p_enable = false →
        (NoAggregator_init (some u)).map MDNSUpdater.p2p_enable_count =
          some (u.p2p_enable_count + 1) ∧
        (InvalidRequest_init 404 (some u)).map MDNSUpdater.p2p_enable_count =
          some (u.p2p_enable_count + 1) ∧
        (TooManyRetries_init (some u)).map MDNSUpdater.p2p_enable_count =
          some (u.p2p_enable_count + 1))
    ∧ (∀ (st : AggState) (env : Env) (m url : String) (d : Option Envelope) (c : Nat),
        ¬ st.aggregator = "" →
        classify (env.attempts st.attemptIdx) = .clientError c →
        (SEND st env m url d).1.updater = InvalidRequest_init c st.updater) := by
  refine ⟨fun u => rfl, fun c u => rfl, fun u => rfl, ?_, ?_⟩
  · intro u h
    refine ⟨?_, ?_, ?_⟩ <;>
      simp [NoAggregator_init, InvalidRequest_init, TooManyRetries_init,
            MDNSUpdater.inc_count_of_not_enable u h]
  · intro st env m url d c hagg hc
    rw [SEND_first_client st env m url d c hagg hc]

/-- Concrete aggregator state for witnesses: registered node `n1`, one mirrored
sender `s1`, a cached aggregator URL, fresh oracle cursors. -/
def stW : AggState :=
  { aggregator := "http://reg:4000", registered := true,
    node := some ⟨"node", "n1"⟩,
    entities := [("resource", [("sender", [("s1", ⟨"sender", "s1"⟩)])])],
    regQueue := [], updater := some uW, running := true,
    attemptIdx := 0, hrefIdx := 0, requests := [] }

/-- Environment answering every request with status 400. -/
def envW400 : Env := { attempts := fun _ => .status 400 true, hrefs := fun _ => "http://b" }

/-- Witness for C10: the constructor bumps at `uW` and the Sender 4xx path at
`stW`/`envW400`. -/
theorem C10_ctor_bumps_witness :
    ((NoAggregator_init (some uW)).map MDNSUpdater.p2p_enable_count =
        some (uW.p2p_enable_count + 1) ∧
      (InvalidRequest_init 404 (some uW)).map MDNSUpdater.p2p_enable_count =
        some (uW.p2p_enable_count + 1) ∧
      (TooManyRetries_init (some uW)).map MDNSUpdater.p2p_enable_count =
        some (uW.p2p_enable_count + 1))
    ∧ (SEND stW envW400 "POST" "/resource" none).1.updater =
        InvalidRequest_init 400 stW.updater :=
  ⟨C10_ctor_bumps.2.2.2.1 uW rfl,
   C10_ctor_bumps.2.2.2.2 stW envW400 "POST" "/resource" none 400 (by decide) (by decide)⟩

/-- Triple lookup `entities[ns][rt][key]` in the mirror, `none` when any level
is missing. -/
def mirrorGet (ents : Entities) (ns rt key : String) : Option Envelope :=
  match alookup ents ns with
  | none => none
  | some tmap =>
    match alookup tmap rt with
    | none => none
    | some kmap => alookup kmap key

theorem alookup_aerase_self {α : Type} (l : List (String × α)) (k : String) :
    alookup (aerase l k) k = none := by
  induction l with
  | nil => rfl
  | cons q rest ih =>
    by_cases hq : q.1 = k
    · simpa [aerase, hq] using ih
    · simpa [aerase, hq, alookup] using ih

theorem alookup_delEntity (ents : Entities) (ns rt key : String) :
    alookup (delEntity ents ns rt key) ns =
      (alookup ents ns).map
        (fun tmap => tmap.map fun q => if q.1 = rt then (q.1, aerase q.2 key) else q) := by
  induction ents with
  | nil => rfl
  | cons p rest ih =>
    by_cases hp : p.1 = ns
    · simp [delEntity, alookup, hp]
    · simpa [delEntity, alookup, hp] using ih

theorem alookup_map_cond (tmap : TypeMap) (rt key : String) :
    alookup (tmap.map fun q => if q.1 = rt then (q.1, aerase q.2 key) else q) rt =
      (alookup tmap rt).map (fun km => aerase km key) := by
  induction tmap with
  | nil => rfl
  | cons q rest ih =>
    by_cases hq : q.1 = rt
    · simp [alookup, hq]
    · simpa [alookup, hq] using ih

theorem mirrorGet_delEntity (ents : Entities) (ns rt key : String) :
    mirrorGet (delEntity ents ns rt key) ns rt key = none := by
  unfold mirrorGet
  rw [alookup_delEntity]
  cases h : alookup ents ns with
  | none => rfl
  | some tmap =>
    simp only [Option.map_some']
    rw [alookup_map_cond]
    cases h2 : alookup tmap rt with
    | none => rfl
    | some km =>
      simp only [Option.map_some']
      exact alookup_aerase_self km key

/-- Claim C4: when the queue worker processes a POST intent for a non-node
resource whose envelope is present in the mirror and the registry answers
with 4xx, the worker deletes that key from the mirror, leaves the rest of the
queue untouched (no re-enqueue), and issues exactly the one POST (no retry). -/
theorem C4_post_4xx_deletes (st : AggState) (env : Env) (it : Intent)
    (rest : List Intent) (tmap : TypeMap) (kmap : KeyMap) (data : Envelope) (c : Nat)
    (hreg : st.registered = true)
    (hq : st.regQueue = it :: rest)
    (hm : it.method = "POST") (hrt : ¬ it.res_type = "node")
    (hns : alookup st.entities it.nspace = some tmap)
    (htm : alookup tmap it.res_type = some kmap)
    (hk : alookup kmap it.key = some data)
    (hagg : ¬ st.aggregator = "")
    (hc : classify (env.attempts st.attemptIdx) = .clientError c) :
    mirrorGet (processQueueStep st env).entities it.nspace it.res_type it.key = none ∧
    (processQueueStep st env).regQueue = rest ∧
    (processQueueStep st env).requests =
      st.requests ++ [⟨"POST", st.aggregator, fullPath ("/" ++ it.nspace), some data⟩] := by
  have hstep : processQueueStep st env =
      { st with
        regQueue := rest,
        entities := delEntity st.entities it.nspace it.res_type it.key,
        requests := st.requests ++
          [⟨"POST", st.aggregator, fullPath ("/" ++ it.nspace), some data⟩],
        attemptIdx := st.attemptIdx + 1,
        updater := InvalidRequest_init c st.updater } := by
    unfold processQueueStep
    rw [if_neg (by simp [hreg]), hq]
    unfold processIntentInner
    simp only [hm, hrt, if_true, if_false, ite_true, ite_false, reduceIte]
    simp only [hns, htm, hk]
    rw [SEND_first_client _ env "POST" ("/" ++ it.nspace) (some data) c
      (by simpa using hagg) (by simpa using hc)]
  rw [hstep]
  exact ⟨mirrorGet_delEntity st.entities it.nspace it.res_type it.key, rfl, rfl⟩

/-- Claim C7: dequeuing a POST intent for a non-node resource whose key is
absent from the (present) inner mirror level is a no-op: the worker pops the
intent and nothing else changes — no request is sent, the mirror and the
registered flag are untouched, and no exception reaches the outer handler. -/
theorem C7_missing_envelope_noop (st : AggState) (env : Env) (it : Intent)
    (rest : List Intent) (tmap : TypeMap) (kmap : KeyMap)
    (hreg : st.registered = true)
    (hq : st.regQueue = it :: rest)
    (hm : it.method = "POST") (hrt : ¬ it.res_type = "node")
    (hns : alookup st.entities it.nspace = some tmap)
    (htm : alookup tmap it.res_type = some kmap)
    (hk : alookup kmap it.key = none) :
    processQueueStep st env = { st with regQueue := rest } := by
  unfold processQueueStep
  rw [if_neg (by simp [hreg]), hq]
  unfold processIntentInner
  simp only [hm, hrt, if_true, if_false, ite_true, ite_false, reduceIte]
  simp only [hns, htm, hk]

/-- State with a queued POST intent for mirrored sender `s1`. -/
def stC4 : AggState := { stW with regQueue := [⟨"POST", "resource", "sender", "s1"⟩] }

/-- Witness for C4: registry answers 400 to the `s1` POST. -/
theorem C4_post_4xx_deletes_witness :
    mirrorGet (processQueueStep stC4 envW400).entities "resource" "sender" "s1" = none ∧
    (processQueueStep stC4 envW400).regQueue = [] ∧
    (processQueueStep stC4 envW400).requests =
      stC4.requests ++ [⟨"POST", stC4.aggregator, fullPath "/resource",
        some ⟨"sender", "s1"⟩⟩] :=
  C4_post_4xx_deletes stC4 envW400 ⟨"POST", "resource", "sender", "s1"⟩ []
    [("sender", [("s1", ⟨"sender", "s1"⟩)])] [("s1", ⟨"sender", "s1"⟩)]
    ⟨"sender", "s1"⟩ 400 rfl rfl rfl (by decide) (by decide) (by decide) (by decide)
    (by decide) (by decide)

/-- State with a queued POST intent for the unmirrored key `s2`. -/
def stC7 : AggState := { stW with regQueue := [⟨"POST", "resource", "sender", "s2"⟩] }

/-- Witness for C7: popping the stale `s2` intent changes nothing else. -/
theorem C7_missing_envelope_noop_witness :
    processQueueStep stC7 envW400 = { stC7 with regQueue := [] } :=
  C7_missing_envelope_noop stC7 envW400 ⟨"POST", "resource", "sender", "s2"⟩ []
    [("sender", [("s1", ⟨"sender", "s1"⟩)])] [("s1", ⟨"sender", "s1"⟩)]
    rfl rfl rfl (by decide) (by decide) (by decide) (by decide)

/-- Environment in which every request attempt fails at the transport level
and re-resolution keeps finding an aggregator (so the Sender exhausts its
budget and raises `TooManyRetries`). -/
def envFail : Env := { attempts := fun _ => .transportError, hrefs := fun _ => "http://b" }

/-- Updater with P2P currently engaged: `inc_P2P_enable_count` is then a
no-op, and a `P2P_disable` signal would visibly change it. -/
def uP : MDNSUpdater := { uW with p2p_enable := true }

/-- State whose queue head is a POST intent for the node itself. -/
def stC5 : AggState :=
  { stW with regQueue := [⟨"POST", "resource", "node", "n1"⟩], updater := some uP }

/-- Counterexample to claim C5 as stated: processing the node POST intent
raises `TooManyRetries` (an exception other than `InvalidRequest`) inside the
worker, yet the worker leaves `registered` true and never signals
`P2P_disable` (the updater still has `p2p_enable = true` and an untouched
queue), because the node branch catches every exception and only logs it. -/
theorem C5_counterexample :
    (SEND { stC5 with regQueue := [] } envFail "POST" "/resource"
        (some ⟨"node", "n1"⟩)).2 = .error .tooManyRetries ∧
    (processQueueStep stC5 envFail).registered = true ∧
    (processQueueStep stC5 envFail).updater = some uP := by
  refine ⟨?_, ?_, ?_⟩ <;> rfl

/-- Claim C5 (amended): whenever processing a dequeued intent lets an
exception escape to the worker's outer handler — which can only happen for
DELETE intents and non-node POST intents, and never with an `InvalidRequest`
(those are caught and handled per-intent) — the worker marks the node
unregistered and signals `P2P_disable`; a POST intent for the node itself
swallows every exception without these effects. -/
theorem C5_exception_resync_amended :
    (∀ (st : AggState) (env : Env) (it : Intent) (rest : List Intent) (e : PyExc),
      st.registered = true →
      st.regQueue = it :: rest →
      (processIntentInner { st with regQueue := rest } it env).2 = some e →
      processQueueStep st env =
        { (processIntentInner { st with regQueue := rest } it env).1 with
          registered := false,
          updater := (processIntentInner { st with regQueue := rest } it env).1.updater.map
            MDNSUpdater.P2P_disable })
    ∧ (∀ (st : AggState) (it : Intent) (env : Env),
        it.method = "POST" → it.res_type = "node" →
        (processIntentInner st it env).2 = none) := by
  constructor
  · intro st env it rest e hreg hq hinner
    unfold processQueueStep
    rw [if_neg (by simp [hreg]), hq]
    simp only []
    rcases hP : processIntentInner { st with regQueue := rest } it env with ⟨st1, r⟩
    rw [hP] at hinner
    simp only at hinner
    subst hinner
    rfl
  · intro st it env hm hrt
    unfold processIntentInner
    simp only [hm, hrt, ite_true, reduceIte]
    split
    · rfl
    · split
      · rfl
      · split
        · rfl
        · rfl

/-- State with a queued DELETE intent for `s1` and the P2P-engaged updater. -/
def stC5d : AggState :=
  { stW with regQueue := [⟨"DELETE", "resource", "sender", "s1"⟩], updater := some uP }

/-- Witness for the amended C5: a DELETE intent whose transport exhaustion
escapes (marking unregistered and signalling `P2P_disable`), and a node POST
intent whose processing never lets an exception escape. -/
theorem C5_exception_resync_amended_witness :
    processQueueStep stC5d envFail =
      { (processIntentInner { stC5d with regQueue := [] }
          ⟨"DELETE", "resource", "sender", "s1"⟩ envFail).1 with
        registered := false,
        updater := (processIntentInner { stC5d with regQueue := [] }
          ⟨"DELETE", "resource", "sender", "s1"⟩ envFail).1.updater.map
            MDNSUpdater.P2P_disable }
    ∧ (processIntentInner stC5 ⟨"POST", "resource", "node", "n1"⟩ envFail).2 = none :=
  ⟨C5_exception_resync_amended.1 stC5d envFail ⟨"DELETE", "resource", "sender", "s1"⟩ []
      .tooManyRetries rfl rfl (by decide),
   C5_exception_resync_amended.2 stC5 ⟨"POST", "resource", "node", "n1"⟩ envFail rfl rfl⟩

/-- Claim C6: a non-404 4xx on a heartbeat clears the running flag, after
which the heartbeat loop never performs another heartbeat or re-registration
step — every further iteration leaves the state (including the request log)
exactly as it is. -/
theorem C6_fatal_4xx_halts (st : AggState) (env : Env) (nd : Envelope) (c : Nat)
    (hreg : st.registered = true) (hnode : st.node = some nd)
    (hsend : (SEND st env "POST" ("/health/nodes/" ++ nd.id) none).2 =
      .error (.invalidRequest c))
    (h404 : ¬ c = 404) :
    (heartbeatTick st env).running = false ∧
    ∀ n : Nat, heartbeatRun env n (heartbeatTick st env) = heartbeatTick st env := by
  have htick : heartbeatTick st env =
      { (SEND st env "POST" ("/health/nodes/" ++ nd.id) none).1 with running := false } := by
    unfold heartbeatTick
    rw [if_neg (by simp [hreg]), hnode]
    simp only []
    rcases hS : SEND st env "POST" ("/health/nodes/" ++ nd.id) none with ⟨st1, r⟩
    rw [hS] at hsend
    simp only at hsend
    subst hsend
    simp only []
    rw [if_neg h404]
  refine ⟨by rw [htick], ?_⟩
  intro n
  cases n with
  | zero => rfl
  | succ n2 =>
    unfold heartbeatRun
    rw [htick, if_neg (by simp)]

/-- Witness for C6: heartbeat answered 400 at the concrete state `stW`. -/
theorem C6_fatal_4xx_halts_witness :
    (heartbeatTick stW envW400).running = false ∧
    heartbeatRun envW400 4 (heartbeatTick stW envW400) = heartbeatTick stW envW400 :=
  ⟨(C6_fatal_4xx_halts stW envW400 ⟨"node", "n1"⟩ 400 rfl rfl rfl (by decide)).1,
   (C6_fatal_4xx_halts stW envW400 ⟨"node", "n1"⟩ 400 rfl rfl rfl (by decide)).2 4⟩

/-- Closed form of a fully successful re-registration pass: node DELETE
answered 204, node POST and immediate heartbeat answered 201.  The pass bumps
the P2P counter once (line 273 of the source), then disables P2P on success,
drains the queue and re-enqueues the mirror in dependency order, issuing
exactly DELETE node, POST node, POST heartbeat. -/
theorem process_reregister_success (st : AggState) (env : Env) (nd : Envelope)
    (hnode : st.node = some nd) (hagg : ¬ st.aggregator = "")
    (e1 : classify (env.attempts st.attemptIdx) = .success .empty)
    (e2 : classify (env.attempts (st.attemptIdx + 1)) = .success .content)
    (e3 : classify (env.attempts (st.attemptIdx + 2)) = .success .content) :
    process_reregister st env =
      { st with
        registered := true,
        updater := (st.updater.map MDNSUpdater.inc_P2P_enable_count).map
          MDNSUpdater.P2P_disable,
        regQueue := reregisterEnqueueList st.entities,
        requests := st.requests ++
          [⟨"DELETE", st.aggregator, fullPath ("/resource/nodes/" ++ nd.id), none⟩,
           ⟨"POST", st.aggregator, fullPath "/resource", some nd⟩,
           ⟨"POST", st.aggregator, fullPath ("/health/nodes/" ++ nd.id), none⟩],
        attemptIdx := st.attemptIdx + 3 } := by
  unfold process_reregister
  rw [hnode]
  simp only []
  rw [SEND_first_success st env "DELETE" ("/resource/nodes/" ++ nd.id) none .empty hagg e1]
  simp only []
  unfold process_reregister.reregisterAfterClear
  simp only []
  rw [SEND_first_success
    { st with
      requests := st.requests ++
        [⟨"DELETE", st.aggregator, fullPath ("/resource/nodes/" ++ nd.id), none⟩],
      attemptIdx := st.attemptIdx + 1,
      registered := false,
      updater := st.updater.map MDNSUpdater.inc_P2P_enable_count,
      regQueue := [] }
    env "POST" "/resource" (some nd) .content hagg e2]
  simp only []
  rw [SEND_first_success
    { st with
      requests := (st.requests ++
        [⟨"DELETE", st.aggregator, fullPath ("/resource/nodes/" ++ nd.id), none⟩]) ++
        [⟨"POST", st.aggregator, fullPath "/resource", some nd⟩],
      attemptIdx := st.attemptIdx + 1 + 1,
      registered := false,
      updater := st.updater.map MDNSUpdater.inc_P2P_enable_count,
      regQueue := [] }
    env "POST" ("/health/nodes/" ++ nd.id) none .content hagg e3]
  simp only []
  simp [List.append_assoc]
  exact hnode

/-- Environment whose first attempt is answered 404 and every later one 204. -/
def env404 : Env :=
  { attempts := fun n => if n = 0 then .status 404 true else .status 204 false,
    hrefs := fun _ => "http://b" }

/-- Counterexample to claim C1 as stated: at the registered state `stW` (P2P
counter 0, threshold 5) a heartbeat answered 404 flips `registered` to false
but leaves the P2P-enable counter at 2, not 1 — the `InvalidRequest`
constructor already bumps it once before the heartbeat handler bumps it
again. -/
theorem C1_counterexample :
    (heartbeatTick stW env404).registered = false ∧
    (heartbeatTick stW env404).updater.map MDNSUpdater.p2p_enable_count = some 2 ∧
    ¬ (heartbeatTick stW env404).updater.map MDNSUpdater.p2p_enable_count = some 1 := by
  refine ⟨rfl, rfl, by decide⟩

/-- Claim C1 (amended): with the node registered and the updater disengaged at
counter 0 with cut-in threshold above 2, a heartbeat answered 404 flips
`registered` to false and leaves the P2P-enable counter at exactly 2 (one
bump from the raised `InvalidRequest` constructor, one from the heartbeat
handler); the next tick then runs the re-register procedure, which issues a
DELETE for the node followed by the node POST (and its immediate
heartbeat). -/
theorem C1_heartbeat_404_amended (st : AggState) (env : Env) (nd : Envelope) (u : MDNSUpdater)
    (hreg : st.registered = true) (hnode : st.node = some nd)
    (hagg : ¬ st.aggregator = "") (hupd : st.updater = some u)
    (hen : u.p2p_enable = false) (hcnt : u.p2p_enable_count = 0)
    (hcut : 2 < u.p2p_cut_in_count)
    (h0 : classify (env.attempts st.attemptIdx) = .clientError 404)
    (h1 : classify (env.attempts (st.attemptIdx + 1)) = .success .empty)
    (h2 : classify (env.attempts (st.attemptIdx + 2)) = .success .content)
    (h3 : classify (env.attempts (st.attemptIdx + 3)) = .success .content) :
    (heartbeatTick st env).registered = false ∧
    (heartbeatTick st env).updater.map MDNSUpdater.p2p_enable_count = some 2 ∧
    (heartbeatTick (heartbeatTick st env) env).requests =
      (heartbeatTick st env).requests ++
        [⟨"DELETE", st.aggregator, fullPath ("/resource/nodes/" ++ nd.id), none⟩,
         ⟨"POST", st.aggregator, fullPath "/resource", some nd⟩,
         ⟨"POST", st.aggregator, fullPath ("/health/nodes/" ++ nd.id), none⟩] := by
  have htick1 : heartbeatTick st env =
      { st with
        registered := false,
        updater := (InvalidRequest_init 404 st.updater).map MDNSUpdater.inc_P2P_enable_count,
        requests := st.requests ++
          [⟨"POST", st.aggregator, fullPath ("/health/nodes/" ++ nd.id), none⟩],
        attemptIdx := st.attemptIdx + 1 } := by
    unfold heartbeatTick
    rw [if_neg (by simp [hreg]), hnode]
    simp only []
    rw [SEND_first_client st env "POST" ("/health/nodes/" ++ nd.id) none 404 hagg h0]
    simp only []
    rw [if_true, hnode]
  have hu2 : MDNSUpdater.inc_P2P_enable_count (MDNSUpdater.inc_P2P_enable_count u) =
      { u with p2p_enable_count := u.p2p_enable_count + 1 + 1 } := by
    rw [MDNSUpdater.inc_small u hen (by omega)]
    rw [MDNSUpdater.inc_small _ (by simpa using hen) (by simp; omega)]
  refine ⟨by rw [htick1], ?_, ?_⟩
  · rw [htick1]
    simp only []
    rw [hupd]
    show some (MDNSUpdater.inc_P2P_enable_count
      (MDNSUpdater.inc_P2P_enable_count u)).p2p_enable_count = some 2
    rw [hu2]
    simp [hcnt]
  · rw [htick1]
    unfold heartbeatTick
    rw [if_pos (by simp)]
    rw [process_reregister_success _ env nd (by simpa using hnode) (by simpa using hagg)
        (by simpa using h1) (by simpa using h2) (by simpa using h3)]

/-- Environment for the C1 witness: heartbeat answered 404, then the
re-register DELETE answered 204 and both POSTs answered 201. -/
def env404r : Env :=
  { attempts := fun n =>
      if n = 0 then .status 404 true
      else if n = 1 then .status 204 false
      else .status 201 true,
    hrefs := fun _ => "http://b" }

/-- Witness for the amended C1 at the concrete state `stW`. -/
theorem C1_heartbeat_404_amended_witness :
    (heartbeatTick stW env404r).registered = false ∧
    (heartbeatTick stW env404r).updater.map MDNSUpdater.p2p_enable_count = some 2 ∧
    (heartbeatTick (heartbeatTick stW env404r) env404r).requests =
      (heartbeatTick stW env404r).requests ++
        [⟨"DELETE", stW.aggregator, fullPath ("/resource/nodes/" ++ "n1"), none⟩,
         ⟨"POST", stW.aggregator, fullPath "/resource", some ⟨"node", "n1"⟩⟩,
         ⟨"POST", stW.aggregator, fullPath ("/health/nodes/" ++ "n1"), none⟩] :=
  C1_heartbeat_404_amended stW env404r ⟨"node", "n1"⟩ uW rfl rfl (by decide) rfl rfl rfl
    (by decide) (by decide) (by decide) (by decide) (by decide)

/-- Environment in which every attempt fails and re-resolution finds no
aggregator at all. -/
def envEmptyRes : Env := { attempts := fun _ => .transportError, hrefs := fun _ => "" }

/-- Witness for C2: budget exhaustion with 3 attempts and 3 re-resolutions at
`stW`/`envFail`, and `NoAggregator` once a re-resolution yields the empty
URL. -/
theorem C2_retry_budget_witness :
    (SEND stW envFail "POST" "/resource" none).1.requests.length =
      stW.requests.length + 3 ∧
    (SEND stW envFail "POST" "/resource" none).1.hrefIdx = stW.hrefIdx + 3 ∧
    (SEND stW envEmptyRes "POST" "/resource" none).2 = .error .noAggregator :=
  ⟨C2_retry_budget.2.1 stW envFail "POST" "/resource" none rfl,
   C2_retry_budget.2.2.1 stW envFail "POST" "/resource" none (by decide) rfl,
   C2_retry_budget.2.2.2.2 stW envEmptyRes "POST" "/resource" none (by decide) (by decide)
     rfl⟩
